import Mathlib

/-!
Shallow embedding of the resilient generation client of `src/grab.py`
(`safe_generate_content`, lines 203-242, and `generate_with_openai_fallback`,
lines 136-201).

Provider calls are modelled as oracles: an `Outcome` per primary attempt, an
`Outcome` per transcription call and per chat-completion call.  A Python
exception raised by a provider is the `Outcome.raise_` constructor carrying
`str(e)`.  Side effects (the `time.sleep` backoff, `st.warning` / `st.error`
messages, temporary-file creation and deletion, and each provider call) are
recorded in an event trace, and the temporary-file state of the fallback is
threaded explicitly, so that the claims about sleeps, call counts, user-visible
error classification and file leaks are statable.
-/

/-- Result of one provider call: the generated text, or the message of the
exception the call raised (`str(e)` in the Python). -/
inductive Outcome where
  | ok (text : String)
  | raise_ (msg : String)
  deriving DecidableEq, Repr

/-- One item of the `contents` list passed to `safe_generate_content`: a plain
string, or a dict `{"data": ..., "mime_type": ...}` holding audio bytes
(`mime_type` is optional, matching the `"mime_type" in item` check at line 156). -/
inductive ReqPart where
  | text (s : String)
  | audio (data : List Nat) (mimeType : Option String)
  deriving DecidableEq, Repr

/-- The `contents` argument: either a simple string or a list of parts
(the `isinstance(contents, list)` branch at line 145). -/
inductive Contents where
  | simple (s : String)
  | parts (ps : List ReqPart)
  deriving DecidableEq, Repr

/-- Observable events of one `safe_generate_content` request, in order. -/
inductive Event where
  | sleep (d : Nat)
  | primaryCall (attempt : Nat)
  | warnSwitching
  | secondaryChatCall (finalPrompt : String)
  | tmpCreate (id : Nat) (suffix : String)
  | transcribeCall (n : Nat)
  | tmpDelete (id : Nat)
  | warnFallbackAudio (msg : String)
  | errorFallbackFailed (msg : String)
  | errorQuotaNoFallback
  | errorApi (msg : String)
  deriving DecidableEq, Repr

/-- State of the temporary files staged by the fallback: the id the next
`tempfile.NamedTemporaryFile` will get, and the ids of files currently on disk. -/
structure FsState where
  nextTmpId : Nat
  existing : List Nat
  deriving DecidableEq, Repr

/-- The environment of one request: the primary provider's outcome per attempt
index, whether `openai_client` is configured (truthy), the secondary
transcription outcome per call index, and the secondary chat-completion outcome
per final prompt.  The chat system message is the constant of line 194 and is
not modelled. -/
structure Behavior where
  primary : Nat → Outcome
  secondaryConfigured : Bool
  transcribe : Nat → Outcome
  chat : String → Outcome

/-- Result of one request: the returned text (`None` becomes `none`; a Gemini
response or `MockResponse` becomes `some text`), the final temporary-file
state, and the event trace. -/
structure RunResult where
  result : Option String
  fs : FsState
  events : List Event
  deriving DecidableEq, Repr

/-- Decides whether the character list `needle` occurs at the start of `hay`. -/
def startsWithChars : List Char → List Char → Bool
  | [], _ => true
  | _ :: _, [] => false
  | p :: ps, c :: cs => p == c && startsWithChars ps cs

/-- Decides whether `needle` occurs as a contiguous run anywhere in `hay`
(the Python `needle in hay` test on strings). -/
def containsSub (needle : List Char) : List Char → Bool
  | [] => startsWithChars needle []
  | c :: cs => startsWithChars needle (c :: cs) || containsSub needle cs

/-- The Python `needle in hay` substring test. -/
def strContains (hay needle : String) : Bool :=
  containsSub needle.data hay.data

/-- Lower-cases a character list (the Python `.lower()`; messages and keywords
here are ASCII, where `Char.toLower` agrees with Python). -/
def lowerChars (cs : List Char) : List Char :=
  cs.map Char.toLower

/-- The quota/rate-limit keyword set of lines 219 and 229 (the two lines list
the same keywords in different orders; `any` makes the order irrelevant). -/
def quota_keywords : List String :=
  ["429", "quota", "resource", "exhausted", "limit"]

/-- Line 217-219 / 227-229: lower-case the exception message and test each
keyword for substring membership. -/
def isQuotaError (msg : String) : Bool :=
  quota_keywords.any (fun k => containsSub k.data (lowerChars msg.data))

/-- Lines 153-162: choose the temp-file suffix from the lower-cased mime type;
the default (and every fall-through) is `".wav"`. -/
def suffixFor (mimeType : Option String) : String :=
  match mimeType with
  | none => ".wav"
  | some m =>
    let mt := String.mk (lowerChars m.data)
    if strContains mt "mpeg" || strContains mt "mp3" then ".mp3"
    else if strContains mt "ogg" then ".ogg"
    else if strContains mt "webm" then ".webm"
    else if strContains mt "mp4" || strContains mt "m4a" then ".m4a"
    else if strContains mt "flac" then ".flac"
    else if strContains mt "wav" then ".wav"
    else ".wav"

/-- Loop state of the `for item in contents` loop of lines 146-183:
accumulated `prompt_parts`, temp-file state, number of transcription calls
made so far, and events emitted so far. -/
structure FallbackLoopState where
  promptParts : List String
  fs : FsState
  tcalls : Nat
  events : List Event
  deriving Repr

/-- Lines 146-183, one loop iteration.  A text item is appended to
`prompt_parts`.  An audio item: a temp file is created (`delete=False`) and the
bytes written (lines 164-166), the transcription call is made (lines 169-174);
on success the transcription text is appended and `os.unlink` removes the file
(lines 177-180); if the transcription call raises, the inner `except` at line
182 emits a warning and the `os.unlink` at line 180 is skipped, so the file
stays on disk. -/
def processItem (b : Behavior) (st : FallbackLoopState) : ReqPart → FallbackLoopState
  | ReqPart.text s => { st with promptParts := st.promptParts ++ [s] }
  | ReqPart.audio _ mimeType =>
    let suffix := suffixFor mimeType
    let id := st.fs.nextTmpId
    let ev1 := st.events ++ [Event.tmpCreate id suffix, Event.transcribeCall st.tcalls]
    match b.transcribe st.tcalls with
    | Outcome.ok t =>
        { promptParts := st.promptParts ++ ["\n[Audio Transcription]: " ++ t ++ "\n"]
          fs := ⟨id + 1, (st.fs.existing ++ [id]).filter (fun j => j != id)⟩
          tcalls := st.tcalls + 1
          events := ev1 ++ [Event.tmpDelete id] }
    | Outcome.raise_ m =>
        { promptParts := st.promptParts
          fs := ⟨id + 1, st.fs.existing ++ [id]⟩
          tcalls := st.tcalls + 1
          events := ev1 ++ [Event.warnFallbackAudio ("Fallback Audio Processing Error: " ++ m)] }

/-- Lines 142-186: build `prompt_parts` from `contents`.  A simple string is
appended as the single part (line 186); a list is processed item by item. -/
def buildPromptParts (b : Behavior) (c : Contents) (fs : FsState) : FallbackLoopState :=
  match c with
  | Contents.simple s => ⟨[s], fs, 0, []⟩
  | Contents.parts ps => ps.foldl (processItem b) ⟨[], fs, 0, []⟩

/-- Line 188: `final_prompt = " ".join(prompt_parts)`. -/
def fallbackPrompt (b : Behavior) (c : Contents) (fs : FsState) : String :=
  String.intercalate " " (buildPromptParts b c fs).promptParts

/-- Lines 136-201, `generate_with_openai_fallback`.  Returns `None` immediately
when no `openai_client` is configured (lines 138-139).  Otherwise builds the
combined prompt, makes exactly one chat-completion call (lines 191-197), and
returns its text wrapped (`MockResponse`, line 198); if the chat call raises,
the outer `except` at lines 199-201 emits the `OpenAI Fallback Failed` error
and returns `None`. -/
def generate_with_openai_fallback (b : Behavior) (c : Contents) (fs : FsState) :
    Option String × FsState × List Event :=
  if b.secondaryConfigured then
    let st1 := buildPromptParts b c fs
    let p := fallbackPrompt b c fs
    let ev := st1.events ++ [Event.secondaryChatCall p]
    match b.chat p with
    | Outcome.ok t => (some t, st1.fs, ev)
    | Outcome.raise_ m =>
        (none, st1.fs, ev ++ [Event.errorFallbackFailed ("⚠️ OpenAI Fallback Failed: " ++ m)])
  else (none, fs, [])

/-- Lines 212-224, the `for attempt in range(retries)` loop.  `remaining` is the
number of iterations left, `attemptIdx` the value of `attempt`, `delay` the
current backoff.  On success the text is returned at once.  On a failure the
exception becomes `last_exception`; a quota-classified failure sleeps `delay`,
doubles it and continues (also on the last iteration, whose sleep precedes the
loop exit); a non-quota failure breaks. -/
def tryPrimary (primary : Nat → Outcome) (remaining attemptIdx delay : Nat)
    (lastErr : Option String) (events : List Event) :
    Option String × Option String × List Event :=
  match remaining with
  | 0 => (none, lastErr, events)
  | Nat.succ n =>
    let events1 := events ++ [Event.primaryCall attemptIdx]
    match primary attemptIdx with
    | Outcome.ok t => (some t, lastErr, events1)
    | Outcome.raise_ m =>
      if isQuotaError m then
        tryPrimary primary n (attemptIdx + 1) (delay * 2) (some m)
          (events1 ++ [Event.sleep delay])
      else (none, some m, events1)

/-- The temp-file state at the start of a request: no staged files. -/
def initFs : FsState := ⟨0, []⟩

/-- Lines 203-242, `safe_generate_content` with `retries = 2`, `delay = 1`.
After the primary loop, the last exception's message is re-classified (lines
227-229; `""` when no exception).  On a quota classification: if
`openai_client` is configured, the switching warning is emitted and the
fallback is called once, its result returned when truthy (lines 230-234); with
no client configured the quota error is reported and `None` returned at once
(lines 235-237).  Every other path falls through to the final report of lines
240-242: the `API Error` message when an exception was recorded, then `None`. -/
def safe_generate_content (b : Behavior) (c : Contents) : RunResult :=
  match tryPrimary b.primary 2 0 1 none [] with
  | (some t, _, evs) => ⟨some t, initFs, evs⟩
  | (none, lastErr, evs) =>
    let errorStr := match lastErr with
      | some m => m
      | none => ""
    if isQuotaError errorStr then
      if b.secondaryConfigured then
        let evs1 := evs ++ [Event.warnSwitching]
        match generate_with_openai_fallback b c initFs with
        | (some t, fs2, fev) => ⟨some t, fs2, evs1 ++ fev⟩
        | (none, fs2, fev) =>
          match lastErr with
          | some m => ⟨none, fs2, evs1 ++ fev ++ [Event.errorApi ("⚠️ **API Error:** " ++ m)]⟩
          | none => ⟨none, fs2, evs1 ++ fev⟩
      else ⟨none, initFs, evs ++ [Event.errorQuotaNoFallback]⟩
    else
      match lastErr with
      | some m => ⟨none, initFs, evs ++ [Event.errorApi ("⚠️ **API Error:** " ++ m)]⟩
      | none => ⟨none, initFs, evs⟩

/-- Recognizes a primary-provider call event. -/
def isPrimaryCall : Event → Bool
  | Event.primaryCall _ => true
  | _ => false

/-- Recognizes a backoff sleep event. -/
def isSleep : Event → Bool
  | Event.sleep _ => true
  | _ => false

/-- Recognizes the single chat-completion submission to the secondary provider. -/
def isSecondaryChat : Event → Bool
  | Event.secondaryChatCall _ => true
  | _ => false

/-- Recognizes a secondary transcription call event. -/
def isTranscribeCall : Event → Bool
  | Event.transcribeCall _ => true
  | _ => false

/-- Recognizes a user-visible `st.error` event (the typed failure reports). -/
def isErrorEvent : Event → Bool
  | Event.errorFallbackFailed _ => true
  | Event.errorQuotaNoFallback => true
  | Event.errorApi _ => true
  | _ => false

/-- Events that the per-item fallback loop of lines 146-183 can emit. -/
def itemEvent : Event → Bool
  | Event.tmpCreate _ _ => true
  | Event.transcribeCall _ => true
  | Event.tmpDelete _ => true
  | Event.warnFallbackAudio _ => true
  | _ => false

/-- Number of events of a given kind in a trace. -/
def countP (p : Event → Bool) (evs : List Event) : Nat :=
  (evs.filter p).length

/-- Number of primary-provider attempts recorded in a trace. -/
def primaryAttempts (evs : List Event) : Nat := countP isPrimaryCall evs

/-- Number of secondary chat-completion submissions recorded in a trace. -/
def secondaryAttempts (evs : List Event) : Nat := countP isSecondaryChat evs

/-- The text of a text part; `none` for an audio part. -/
def partText : ReqPart → Option String
  | ReqPart.text s => some s
  | ReqPart.audio _ _ => none

/-- Recognizes an audio part. -/
def isAudioPart : ReqPart → Bool
  | ReqPart.audio _ _ => true
  | ReqPart.text _ => false

/-- Counting distributes over trace concatenation. -/
theorem countP_append (p : Event → Bool) (a b : List Event) :
    countP p (a ++ b) = countP p a + countP p b := by
  simp [countP, List.filter_append]

/-- Events emitted by the per-item loop never include sleeps, primary calls,
chat submissions or error reports. -/
theorem itemEvent_not_special (e : Event) (h : itemEvent e = true) :
    isSleep e = false ∧ isPrimaryCall e = false ∧ isSecondaryChat e = false ∧
      isErrorEvent e = false := by
  cases e <;> simp_all [itemEvent, isSleep, isPrimaryCall, isSecondaryChat, isErrorEvent]

/-- One iteration of the per-item loop only appends item events to the trace. -/
theorem processItem_events (b : Behavior) (st : FallbackLoopState) (item : ReqPart) :
    ∃ ex, (processItem b st item).events = st.events ++ ex ∧
      ∀ e ∈ ex, itemEvent e = true := by
  cases item with
  | text s => exact ⟨[], by simp [processItem], by simp⟩
  | audio d mt =>
    cases h : b.transcribe st.tcalls with
    | ok t =>
        refine ⟨[Event.tmpCreate st.fs.nextTmpId (suffixFor mt),
          Event.transcribeCall st.tcalls, Event.tmpDelete st.fs.nextTmpId], ?_, ?_⟩
        · simp [processItem, h]
        · intro e he
          simp only [List.mem_cons, List.not_mem_nil, or_false] at he
          rcases he with rfl | rfl | rfl <;> simp [itemEvent]
    | raise_ m =>
        refine ⟨[Event.tmpCreate st.fs.nextTmpId (suffixFor mt),
          Event.transcribeCall st.tcalls,
          Event.warnFallbackAudio ("Fallback Audio Processing Error: " ++ m)], ?_, ?_⟩
        · simp [processItem, h]
        · intro e he
          simp only [List.mem_cons, List.not_mem_nil, or_false] at he
          rcases he with rfl | rfl | rfl <;> simp [itemEvent]

/-- The whole per-item loop only appends item events to the trace. -/
theorem foldl_processItem_events (b : Behavior) (ps : List ReqPart)
    (st : FallbackLoopState) :
    ∃ ex, (ps.foldl (processItem b) st).events = st.events ++ ex ∧
      ∀ e ∈ ex, itemEvent e = true := by
  induction ps generalizing st with
  | nil => exact ⟨[], by simp, by simp⟩
  | cons p ps ih =>
    obtain ⟨ex1, h1, hx1⟩ := processItem_events b st p
    obtain ⟨ex2, h2, hx2⟩ := ih (processItem b st p)
    refine ⟨ex1 ++ ex2, ?_, ?_⟩
    · simp only [List.foldl_cons, h2, h1, List.append_assoc]
    · intro e he
      rcases List.mem_append.mp he with h | h
      exacts [hx1 e h, hx2 e h]

/-- Every event recorded while building the fallback prompt is an item event. -/
theorem buildPromptParts_events (b : Behavior) (c : Contents) (fs : FsState) :
    ∀ e ∈ (buildPromptParts b c fs).events, itemEvent e = true := by
  cases c with
  | simple s => intro e he; simp [buildPromptParts] at he
  | parts ps =>
    intro e he
    obtain ⟨ex, hev, hx⟩ := foldl_processItem_events b ps ⟨[], fs, 0, []⟩
    rw [buildPromptParts] at he
    rw [hev] at he
    simp at he
    exact hx e he

/-- Shape of one configured fallback call: the item events of the prompt build,
then exactly one chat submission, then (on a chat failure) the
`OpenAI Fallback Failed` error; the result is the chat text exactly when the
chat call succeeded. -/
theorem fallback_shape (b : Behavior) (c : Contents) (fs : FsState)
    (h : b.secondaryConfigured = true) :
    (∃ t, b.chat (fallbackPrompt b c fs) = Outcome.ok t ∧
      generate_with_openai_fallback b c fs =
        (some t, (buildPromptParts b c fs).fs,
          (buildPromptParts b c fs).events ++
            [Event.secondaryChatCall (fallbackPrompt b c fs)])) ∨
    (∃ m, b.chat (fallbackPrompt b c fs) = Outcome.raise_ m ∧
      generate_with_openai_fallback b c fs =
        (none, (buildPromptParts b c fs).fs,
          (buildPromptParts b c fs).events ++
            [Event.secondaryChatCall (fallbackPrompt b c fs),
             Event.errorFallbackFailed ("⚠️ OpenAI Fallback Failed: " ++ m)])) := by
  cases hc : b.chat (fallbackPrompt b c fs) with
  | ok t =>
    left
    exact ⟨t, rfl, by simp [generate_with_openai_fallback, h, hc]⟩
  | raise_ m =>
    right
    exact ⟨m, rfl, by simp [generate_with_openai_fallback, h, hc]⟩

/-- Counting a trace headed by one event. -/
theorem countP_cons (p : Event → Bool) (e : Event) (l : List Event) :
    countP p (e :: l) = (if p e then 1 else 0) + countP p l := by
  simp only [countP, List.filter_cons]
  split <;> simp [Nat.add_comm]

/-- The empty trace has no events of any kind. -/
theorem countP_nil (p : Event → Bool) : countP p [] = 0 := rfl

/-- A trace none of whose events match is counted as zero. -/
theorem countP_eq_zero (p : Event → Bool) (evs : List Event)
    (h : ∀ e ∈ evs, p e = false) : countP p evs = 0 := by
  simp only [countP, List.length_eq_zero, List.filter_eq_nil_iff]
  intro e he
  simp [h e he]

/-- Kinds of events that the per-item loop never emits are counted as zero over
the prompt-build trace. -/
theorem countP_buildPromptParts_eq_zero (p : Event → Bool)
    (hp : ∀ e, itemEvent e = true → p e = false)
    (b : Behavior) (c : Contents) (fs : FsState) :
    countP p (buildPromptParts b c fs).events = 0 :=
  countP_eq_zero p _ (fun e he => hp e (buildPromptParts_events b c fs e he))

/-- Case analysis on one whole request: the seven terminal paths of
`safe_generate_content`, each with the exact trace it leaves. -/
theorem safe_generate_content_shape (b : Behavior) (c : Contents) :
    (∃ t, b.primary 0 = Outcome.ok t ∧
      safe_generate_content b c = ⟨some t, initFs, [Event.primaryCall 0]⟩) ∨
    (∃ m0, b.primary 0 = Outcome.raise_ m0 ∧ isQuotaError m0 = false ∧
      safe_generate_content b c =
        ⟨none, initFs,
          [Event.primaryCall 0, Event.errorApi ("⚠️ **API Error:** " ++ m0)]⟩) ∨
    (∃ m0 t, b.primary 0 = Outcome.raise_ m0 ∧ isQuotaError m0 = true ∧
      b.primary 1 = Outcome.ok t ∧
      safe_generate_content b c =
        ⟨some t, initFs,
          [Event.primaryCall 0, Event.sleep 1, Event.primaryCall 1]⟩) ∨
    (∃ m0 m1, b.primary 0 = Outcome.raise_ m0 ∧ isQuotaError m0 = true ∧
      b.primary 1 = Outcome.raise_ m1 ∧ isQuotaError m1 = false ∧
      safe_generate_content b c =
        ⟨none, initFs,
          [Event.primaryCall 0, Event.sleep 1, Event.primaryCall 1,
           Event.errorApi ("⚠️ **API Error:** " ++ m1)]⟩) ∨
    (∃ m0 m1, b.primary 0 = Outcome.raise_ m0 ∧ isQuotaError m0 = true ∧
      b.primary 1 = Outcome.raise_ m1 ∧ isQuotaError m1 = true ∧
      b.secondaryConfigured = false ∧
      safe_generate_content b c =
        ⟨none, initFs,
          [Event.primaryCall 0, Event.sleep 1, Event.primaryCall 1, Event.sleep 2,
           Event.errorQuotaNoFallback]⟩) ∨
    (∃ m0 m1 t, b.primary 0 = Outcome.raise_ m0 ∧ isQuotaError m0 = true ∧
      b.primary 1 = Outcome.raise_ m1 ∧ isQuotaError m1 = true ∧
      b.secondaryConfigured = true ∧
      b.chat (fallbackPrompt b c initFs) = Outcome.ok t ∧
      safe_generate_content b c =
        ⟨some t, (buildPromptParts b c initFs).fs,
          [Event.primaryCall 0, Event.sleep 1, Event.primaryCall 1, Event.sleep 2,
           Event.warnSwitching] ++
            ((buildPromptParts b c initFs).events ++
              [Event.secondaryChatCall (fallbackPrompt b c initFs)])⟩) ∨
    (∃ m0 m1 me, b.primary 0 = Outcome.raise_ m0 ∧ isQuotaError m0 = true ∧
      b.primary 1 = Outcome.raise_ m1 ∧ isQuotaError m1 = true ∧
      b.secondaryConfigured = true ∧
      b.chat (fallbackPrompt b c initFs) = Outcome.raise_ me ∧
      safe_generate_content b c =
        ⟨none, (buildPromptParts b c initFs).fs,
          [Event.primaryCall 0, Event.sleep 1, Event.primaryCall 1, Event.sleep 2,
           Event.warnSwitching] ++
            ((buildPromptParts b c initFs).events ++
              [Event.secondaryChatCall (fallbackPrompt b c initFs),
               Event.errorFallbackFailed ("⚠️ OpenAI Fallback Failed: " ++ me)]) ++
            [Event.errorApi ("⚠️ **API Error:** " ++ m1)]⟩) := by
  cases h0 : b.primary 0 with
  | ok t =>
    exact Or.inl ⟨t, rfl, by simp [safe_generate_content, tryPrimary, h0]⟩
  | raise_ m0 =>
    cases hq0 : isQuotaError m0 with
    | false =>
      exact Or.inr (Or.inl ⟨m0, rfl, hq0,
        by simp [safe_generate_content, tryPrimary, h0, hq0]⟩)
    | true =>
      cases h1 : b.primary 1 with
      | ok t =>
        exact Or.inr (Or.inr (Or.inl ⟨m0, t, rfl, hq0, rfl,
          by simp [safe_generate_content, tryPrimary, h0, hq0, h1]⟩))
      | raise_ m1 =>
        cases hq1 : isQuotaError m1 with
        | false =>
          exact Or.inr (Or.inr (Or.inr (Or.inl ⟨m0, m1, rfl, hq0, rfl, hq1,
            by simp [safe_generate_content, tryPrimary, h0, hq0, h1, hq1]⟩)))
        | true =>
          cases hsec : b.secondaryConfigured with
          | false =>
            exact Or.inr (Or.inr (Or.inr (Or.inr (Or.inl ⟨m0, m1, rfl, hq0, rfl, hq1, rfl,
              by simp [safe_generate_content, tryPrimary, h0, hq0, h1, hq1, hsec]⟩))))
          | true =>
            rcases fallback_shape b c initFs hsec with ⟨t, hct, hfb⟩ | ⟨me, hcm, hfb⟩
            · exact Or.inr (Or.inr (Or.inr (Or.inr (Or.inr (Or.inl
                ⟨m0, m1, t, rfl, hq0, rfl, hq1, rfl, hct,
                 by simp [safe_generate_content, tryPrimary, h0, hq0, h1, hq1, hsec, hfb]⟩)))))
            · exact Or.inr (Or.inr (Or.inr (Or.inr (Or.inr (Or.inr
                ⟨m0, m1, me, rfl, hq0, rfl, hq1, rfl, hcm,
                 by simp [safe_generate_content, tryPrimary, h0, hq0, h1, hq1, hsec, hfb]⟩)))))

/-- When every transcription call raises, the per-item loop appends exactly the
text parts to `prompt_parts`: each failed audio item contributes nothing. -/
theorem foldl_processItem_prompt_raise (b : Behavior) (em : String)
    (htr : ∀ n, b.transcribe n = Outcome.raise_ em) (ps : List ReqPart)
    (st : FallbackLoopState) :
    (ps.foldl (processItem b) st).promptParts =
      st.promptParts ++ ps.filterMap partText := by
  induction ps generalizing st with
  | nil => simp
  | cons p ps ih =>
    cases p with
    | text s => simp [processItem, ih, partText]
    | audio d mt => simp [processItem, htr, ih, partText]

/-- When every transcription call raises and some audio part is present, the
per-item loop records the `Fallback Audio Processing Error` warning. -/
theorem foldl_processItem_warn (b : Behavior) (em : String)
    (htr : ∀ n, b.transcribe n = Outcome.raise_ em) (ps : List ReqPart)
    (st : FallbackLoopState) (haud : ps.any isAudioPart = true) :
    Event.warnFallbackAudio ("Fallback Audio Processing Error: " ++ em) ∈
      (ps.foldl (processItem b) st).events := by
  induction ps generalizing st with
  | nil => simp at haud
  | cons p ps ih =>
    cases p with
    | text s =>
      simp only [List.any_cons, isAudioPart, Bool.false_or] at haud
      exact ih _ haud
    | audio d mt =>
      obtain ⟨ex, hev, _⟩ :=
        foldl_processItem_events b ps (processItem b st (ReqPart.audio d mt))
      rw [List.foldl_cons, hev]
      apply List.mem_append_left
      simp [processItem, htr]

/-- Claim C8 (confirmed): when the primary provider succeeds on the first
attempt, the request returns that text immediately: exactly one primary call,
no backoff sleep, no chat submission and no transcription call are recorded. -/
theorem C8_first_attempt_success (b : Behavior) (c : Contents) (t : String)
    (h0 : b.primary 0 = Outcome.ok t) :
    (safe_generate_content b c).result = some t ∧
    primaryAttempts (safe_generate_content b c).events = 1 ∧
    countP isSleep (safe_generate_content b c).events = 0 ∧
    secondaryAttempts (safe_generate_content b c).events = 0 ∧
    countP isTranscribeCall (safe_generate_content b c).events = 0 := by
  have hrun : safe_generate_content b c = ⟨some t, initFs, [Event.primaryCall 0]⟩ := by
    simp [safe_generate_content, tryPrimary, h0]
  rw [hrun]
  refine ⟨rfl, ?_, ?_, ?_, ?_⟩ <;>
    simp [primaryAttempts, secondaryAttempts, countP_cons, countP_nil, isPrimaryCall,
      isSleep, isSecondaryChat, isTranscribeCall]

/-- Environment whose primary provider answers `"hi"` at once. -/
def bOkFirst : Behavior :=
  ⟨fun _ => Outcome.ok "hi", false, fun _ => Outcome.ok "", fun _ => Outcome.ok ""⟩

/-- Witness for C8 at a concrete environment. -/
theorem C8_first_attempt_success_witness :
    bOkFirst.primary 0 = Outcome.ok "hi" ∧
    ((safe_generate_content bOkFirst (Contents.simple "p")).result = some "hi" ∧
     primaryAttempts (safe_generate_content bOkFirst (Contents.simple "p")).events = 1 ∧
     countP isSleep (safe_generate_content bOkFirst (Contents.simple "p")).events = 0 ∧
     secondaryAttempts (safe_generate_content bOkFirst (Contents.simple "p")).events = 0 ∧
     countP isTranscribeCall (safe_generate_content bOkFirst (Contents.simple "p")).events
       = 0) :=
  ⟨rfl, C8_first_attempt_success bOkFirst (Contents.simple "p") "hi" rfl⟩

/-- Claim C7 (confirmed): a first primary failure whose message matches no
quota keyword ends the request at once: one primary attempt, no sleep, no
secondary activity, a `None` result, and the `API Error` report carrying the
last (only) observed message. -/
theorem C7_non_quota_fail_fast (b : Behavior) (c : Contents) (m : String)
    (h0 : b.primary 0 = Outcome.raise_ m) (hq : isQuotaError m = false) :
    (safe_generate_content b c).result = none ∧
    (safe_generate_content b c).events =
      [Event.primaryCall 0, Event.errorApi ("⚠️ **API Error:** " ++ m)] ∧
    primaryAttempts (safe_generate_content b c).events = 1 ∧
    countP isSleep (safe_generate_content b c).events = 0 ∧
    secondaryAttempts (safe_generate_content b c).events = 0 ∧
    countP isTranscribeCall (safe_generate_content b c).events = 0 := by
  have hrun : safe_generate_content b c =
      ⟨none, initFs, [Event.primaryCall 0, Event.errorApi ("⚠️ **API Error:** " ++ m)]⟩ := by
    simp [safe_generate_content, tryPrimary, h0, hq]
  rw [hrun]
  refine ⟨rfl, rfl, ?_, ?_, ?_, ?_⟩ <;>
    simp [primaryAttempts, secondaryAttempts, countP_cons, countP_nil, isPrimaryCall,
      isSleep, isSecondaryChat, isTranscribeCall]

/-- Environment whose primary provider raises `"invalid argument"`. -/
def bInvalidArg : Behavior :=
  ⟨fun _ => Outcome.raise_ "invalid argument", true,
   fun _ => Outcome.ok "", fun _ => Outcome.ok ""⟩

/-- Witness for C7 at a concrete environment. -/
theorem C7_non_quota_fail_fast_witness :
    (bInvalidArg.primary 0 = Outcome.raise_ "invalid argument" ∧
     isQuotaError "invalid argument" = false) ∧
    ((safe_generate_content bInvalidArg (Contents.simple "p")).result = none ∧
     (safe_generate_content bInvalidArg (Contents.simple "p")).events =
       [Event.primaryCall 0,
        Event.errorApi ("⚠️ **API Error:** " ++ "invalid argument")] ∧
     primaryAttempts (safe_generate_content bInvalidArg (Contents.simple "p")).events = 1 ∧
     countP isSleep (safe_generate_content bInvalidArg (Contents.simple "p")).events = 0 ∧
     secondaryAttempts (safe_generate_content bInvalidArg (Contents.simple "p")).events
       = 0 ∧
     countP isTranscribeCall
       (safe_generate_content bInvalidArg (Contents.simple "p")).events = 0) :=
  ⟨⟨rfl, by decide⟩,
   C7_non_quota_fail_fast bInvalidArg (Contents.simple "p") "invalid argument" rfl
     (by decide)⟩

/-- Claim C6 (confirmed): when both primary attempts fail with quota-classified
messages and no secondary client is configured, the request ends with the
`Quota Exceeded` report and a `None` result; no chat submission, no
transcription call and no `OpenAI Fallback Failed` report occur, so the
fallback branch is skipped up front rather than attempted and failed. -/
theorem C6_quota_no_fallback (b : Behavior) (c : Contents) (m0 m1 : String)
    (h0 : b.primary 0 = Outcome.raise_ m0) (hq0 : isQuotaError m0 = true)
    (h1 : b.primary 1 = Outcome.raise_ m1) (hq1 : isQuotaError m1 = true)
    (hsec : b.secondaryConfigured = false) :
    (safe_generate_content b c).result = none ∧
    (safe_generate_content b c).events =
      [Event.primaryCall 0, Event.sleep 1, Event.primaryCall 1, Event.sleep 2,
       Event.errorQuotaNoFallback] ∧
    secondaryAttempts (safe_generate_content b c).events = 0 ∧
    countP isTranscribeCall (safe_generate_content b c).events = 0 ∧
    (∀ m, Event.errorFallbackFailed m ∉ (safe_generate_content b c).events) := by
  have hrun : safe_generate_content b c =
      ⟨none, initFs,
        [Event.primaryCall 0, Event.sleep 1, Event.primaryCall 1, Event.sleep 2,
         Event.errorQuotaNoFallback]⟩ := by
    simp [safe_generate_content, tryPrimary, h0, hq0, h1, hq1, hsec]
  rw [hrun]
  exact ⟨rfl, rfl, by decide, by decide, by intro m; simp⟩

/-- Environment whose primary provider always raises `"quota exceeded"` and
which has no secondary client. -/
def bQuotaNoSec : Behavior :=
  ⟨fun _ => Outcome.raise_ "quota exceeded", false,
   fun _ => Outcome.ok "", fun _ => Outcome.ok ""⟩

/-- Witness for C6 at a concrete environment. -/
theorem C6_quota_no_fallback_witness :
    (bQuotaNoSec.primary 0 = Outcome.raise_ "quota exceeded" ∧
     isQuotaError "quota exceeded" = true ∧
     bQuotaNoSec.secondaryConfigured = false) ∧
    ((safe_generate_content bQuotaNoSec (Contents.simple "p")).result = none ∧
     (safe_generate_content bQuotaNoSec (Contents.simple "p")).events =
       [Event.primaryCall 0, Event.sleep 1, Event.primaryCall 1, Event.sleep 2,
        Event.errorQuotaNoFallback] ∧
     secondaryAttempts (safe_generate_content bQuotaNoSec (Contents.simple "p")).events
       = 0 ∧
     countP isTranscribeCall
       (safe_generate_content bQuotaNoSec (Contents.simple "p")).events = 0 ∧
     (∀ m, Event.errorFallbackFailed m ∉
       (safe_generate_content bQuotaNoSec (Contents.simple "p")).events)) :=
  ⟨⟨rfl, by decide, rfl⟩,
   C6_quota_no_fallback bQuotaNoSec (Contents.simple "p") "quota exceeded" "quota exceeded"
     rfl (by decide) rfl (by decide) rfl⟩

/-- Claim C5 (confirmed): when both primary attempts fail with quota-classified
messages, a secondary client is configured and the chat call succeeds, the
request returns the secondary's text, with exactly two primary attempts and
exactly one chat submission recorded. -/
theorem C5_fallback_success (b : Behavior) (c : Contents) (m0 m1 t : String)
    (h0 : b.primary 0 = Outcome.raise_ m0) (hq0 : isQuotaError m0 = true)
    (h1 : b.primary 1 = Outcome.raise_ m1) (hq1 : isQuotaError m1 = true)
    (hsec : b.secondaryConfigured = true)
    (hchat : ∀ q, b.chat q = Outcome.ok t) :
    (safe_generate_content b c).result = some t ∧
    primaryAttempts (safe_generate_content b c).events = 2 ∧
    secondaryAttempts (safe_generate_content b c).events = 1 := by
  have hfb : generate_with_openai_fallback b c initFs =
      (some t, (buildPromptParts b c initFs).fs,
        (buildPromptParts b c initFs).events ++
          [Event.secondaryChatCall (fallbackPrompt b c initFs)]) := by
    simp [generate_with_openai_fallback, hsec, hchat]
  have hrun : safe_generate_content b c =
      ⟨some t, (buildPromptParts b c initFs).fs,
        [Event.primaryCall 0, Event.sleep 1, Event.primaryCall 1, Event.sleep 2,
         Event.warnSwitching] ++
          ((buildPromptParts b c initFs).events ++
            [Event.secondaryChatCall (fallbackPrompt b c initFs)])⟩ := by
    simp [safe_generate_content, tryPrimary, h0, hq0, h1, hq1, hsec, hfb]
  have hz1 : countP isPrimaryCall (buildPromptParts b c initFs).events = 0 :=
    countP_buildPromptParts_eq_zero _ (fun e he => (itemEvent_not_special e he).2.1) b c initFs
  have hz2 : countP isSecondaryChat (buildPromptParts b c initFs).events = 0 :=
    countP_buildPromptParts_eq_zero _ (fun e he => (itemEvent_not_special e he).2.2.1)
      b c initFs
  rw [hrun]
  refine ⟨rfl, ?_, ?_⟩ <;>
    simp [primaryAttempts, secondaryAttempts, countP_append, countP_cons, countP_nil,
      hz1, hz2, isPrimaryCall, isSecondaryChat]

/-- Environment raising `"429 Too Many Requests"` on every primary attempt,
with a secondary whose chat call answers `"ABC"`. -/
def bQuotaSecABC : Behavior :=
  ⟨fun _ => Outcome.raise_ "429 Too Many Requests", true,
   fun _ => Outcome.ok "", fun _ => Outcome.ok "ABC"⟩

/-- Witness for C5 at the scenario of the spec: two `"429 Too Many Requests"`
failures, then the secondary answers `"ABC"`. -/
theorem C5_fallback_success_witness :
    (bQuotaSecABC.primary 0 = Outcome.raise_ "429 Too Many Requests" ∧
     isQuotaError "429 Too Many Requests" = true ∧
     bQuotaSecABC.secondaryConfigured = true ∧
     (∀ q, bQuotaSecABC.chat q = Outcome.ok "ABC")) ∧
    ((safe_generate_content bQuotaSecABC (Contents.simple "p")).result = some "ABC" ∧
     primaryAttempts (safe_generate_content bQuotaSecABC (Contents.simple "p")).events
       = 2 ∧
     secondaryAttempts (safe_generate_content bQuotaSecABC (Contents.simple "p")).events
       = 1) :=
  ⟨⟨rfl, by decide, rfl, fun _ => rfl⟩,
   C5_fallback_success bQuotaSecABC (Contents.simple "p")
     "429 Too Many Requests" "429 Too Many Requests" "ABC"
     rfl (by decide) rfl (by decide) rfl (fun _ => rfl)⟩

/-- Claim C3 (confirmed): when both primary attempts fail with quota-classified
messages, a secondary client is configured and the chat call itself raises, the
request returns a `None` result and records the `OpenAI Fallback Failed` error
carrying the underlying secondary message — a report distinct by constructor
from the `API Error` and `Quota Exceeded` reports, the latter never occurring
on this path. -/
theorem C3_secondary_failure (b : Behavior) (c : Contents) (m0 m1 ms : String)
    (h0 : b.primary 0 = Outcome.raise_ m0) (hq0 : isQuotaError m0 = true)
    (h1 : b.primary 1 = Outcome.raise_ m1) (hq1 : isQuotaError m1 = true)
    (hsec : b.secondaryConfigured = true)
    (hchat : ∀ q, b.chat q = Outcome.raise_ ms) :
    (safe_generate_content b c).result = none ∧
    Event.errorFallbackFailed ("⚠️ OpenAI Fallback Failed: " ++ ms) ∈
      (safe_generate_content b c).events ∧
    Event.errorQuotaNoFallback ∉ (safe_generate_content b c).events := by
  have hfb : generate_with_openai_fallback b c initFs =
      (none, (buildPromptParts b c initFs).fs,
        (buildPromptParts b c initFs).events ++
          [Event.secondaryChatCall (fallbackPrompt b c initFs),
           Event.errorFallbackFailed ("⚠️ OpenAI Fallback Failed: " ++ ms)]) := by
    simp [generate_with_openai_fallback, hsec, hchat]
  have hrun : safe_generate_content b c =
      ⟨none, (buildPromptParts b c initFs).fs,
        [Event.primaryCall 0, Event.sleep 1, Event.primaryCall 1, Event.sleep 2,
         Event.warnSwitching] ++
          ((buildPromptParts b c initFs).events ++
            [Event.secondaryChatCall (fallbackPrompt b c initFs),
             Event.errorFallbackFailed ("⚠️ OpenAI Fallback Failed: " ++ ms)]) ++
          [Event.errorApi ("⚠️ **API Error:** " ++ m1)]⟩ := by
    simp [safe_generate_content, tryPrimary, h0, hq0, h1, hq1, hsec, hfb]
  rw [hrun]
  refine ⟨rfl, by simp, ?_⟩
  intro hmem
  rcases List.mem_append.mp hmem with hmem1 | hz
  · rcases List.mem_append.mp hmem1 with h5 | hB
    · simp at h5
    · rcases List.mem_append.mp hB with hB | h2
      · exact absurd (buildPromptParts_events b c initFs _ hB) (by decide)
      · simp at h2
  · simp at hz

/-- Environment raising `"quota exceeded"` on every primary attempt, with a
secondary whose chat call raises `"boom"`. -/
def bQuotaSecFail : Behavior :=
  ⟨fun _ => Outcome.raise_ "quota exceeded", true,
   fun _ => Outcome.ok "", fun _ => Outcome.raise_ "boom"⟩

/-- Witness for C3 at a concrete environment. -/
theorem C3_secondary_failure_witness :
    (bQuotaSecFail.primary 0 = Outcome.raise_ "quota exceeded" ∧
     isQuotaError "quota exceeded" = true ∧
     bQuotaSecFail.secondaryConfigured = true ∧
     (∀ q, bQuotaSecFail.chat q = Outcome.raise_ "boom")) ∧
    ((safe_generate_content bQuotaSecFail (Contents.simple "p")).result = none ∧
     Event.errorFallbackFailed ("⚠️ OpenAI Fallback Failed: " ++ "boom") ∈
       (safe_generate_content bQuotaSecFail (Contents.simple "p")).events ∧
     Event.errorQuotaNoFallback ∉
       (safe_generate_content bQuotaSecFail (Contents.simple "p")).events) :=
  ⟨⟨rfl, by decide, rfl, fun _ => rfl⟩,
   C3_secondary_failure bQuotaSecFail (Contents.simple "p")
     "quota exceeded" "quota exceeded" "boom" rfl (by decide) rfl (by decide) rfl
     (fun _ => rfl)⟩

/-- Claim C10 (confirmed): on a fallback request whose parts include audio,
when every transcription call raises, the exception is swallowed: the
`Fallback Audio Processing Error` warning is recorded, the chat call is still
submitted with the combined prompt built from the text parts only (the audio
contribution silently omitted), and when that chat call succeeds the whole
request succeeds with its text. -/
theorem C10_audio_error_swallowed (b : Behavior) (ps : List ReqPart)
    (m0 m1 em t : String)
    (h0 : b.primary 0 = Outcome.raise_ m0) (hq0 : isQuotaError m0 = true)
    (h1 : b.primary 1 = Outcome.raise_ m1) (hq1 : isQuotaError m1 = true)
    (hsec : b.secondaryConfigured = true)
    (htr : ∀ n, b.transcribe n = Outcome.raise_ em)
    (haud : ps.any isAudioPart = true)
    (hchat : ∀ q, b.chat q = Outcome.ok t) :
    (safe_generate_content b (Contents.parts ps)).result = some t ∧
    Event.warnFallbackAudio ("Fallback Audio Processing Error: " ++ em) ∈
      (safe_generate_content b (Contents.parts ps)).events ∧
    Event.secondaryChatCall (String.intercalate " " (ps.filterMap partText)) ∈
      (safe_generate_content b (Contents.parts ps)).events := by
  have hprompt : fallbackPrompt b (Contents.parts ps) initFs =
      String.intercalate " " (ps.filterMap partText) := by
    simp [fallbackPrompt, buildPromptParts, foldl_processItem_prompt_raise b em htr]
  have hfb : generate_with_openai_fallback b (Contents.parts ps) initFs =
      (some t, (buildPromptParts b (Contents.parts ps) initFs).fs,
        (buildPromptParts b (Contents.parts ps) initFs).events ++
          [Event.secondaryChatCall (fallbackPrompt b (Contents.parts ps) initFs)]) := by
    simp [generate_with_openai_fallback, hsec, hchat]
  have hrun : safe_generate_content b (Contents.parts ps) =
      ⟨some t, (buildPromptParts b (Contents.parts ps) initFs).fs,
        [Event.primaryCall 0, Event.sleep 1, Event.primaryCall 1, Event.sleep 2,
         Event.warnSwitching] ++
          ((buildPromptParts b (Contents.parts ps) initFs).events ++
            [Event.secondaryChatCall (fallbackPrompt b (Contents.parts ps) initFs)])⟩ := by
    simp [safe_generate_content, tryPrimary, h0, hq0, h1, hq1, hsec, hfb]
  have hw : Event.warnFallbackAudio ("Fallback Audio Processing Error: " ++ em) ∈
      (buildPromptParts b (Contents.parts ps) initFs).events := by
    simpa [buildPromptParts] using
      foldl_processItem_warn b em htr ps ⟨[], initFs, 0, []⟩ haud
  rw [hrun]
  refine ⟨rfl, ?_, ?_⟩
  · exact List.mem_append_right _ (List.mem_append_left _ hw)
  · rw [← hprompt]
    exact List.mem_append_right _ (List.mem_append_right _ (by simp))

/-- Environment for C10's witness: quota-failing primary, configured secondary
whose transcription always raises `"network error"` and whose chat call
answers `"T"`. -/
def bAudioSwallow : Behavior :=
  ⟨fun _ => Outcome.raise_ "quota exceeded", true,
   fun _ => Outcome.raise_ "network error", fun _ => Outcome.ok "T"⟩

/-- Request parts for C10's witness: a text part and an audio part. -/
def psAudio : List ReqPart :=
  [ReqPart.text "P", ReqPart.audio [1, 2] (some "audio/wav")]

/-- Witness for C10 at a concrete environment. -/
theorem C10_audio_error_swallowed_witness :
    ((∀ n, bAudioSwallow.transcribe n = Outcome.raise_ "network error") ∧
     psAudio.any isAudioPart = true ∧
     (∀ q, bAudioSwallow.chat q = Outcome.ok "T")) ∧
    ((safe_generate_content bAudioSwallow (Contents.parts psAudio)).result = some "T" ∧
     Event.warnFallbackAudio ("Fallback Audio Processing Error: " ++ "network error") ∈
       (safe_generate_content bAudioSwallow (Contents.parts psAudio)).events ∧
     Event.secondaryChatCall (String.intercalate " " (psAudio.filterMap partText)) ∈
       (safe_generate_content bAudioSwallow (Contents.parts psAudio)).events) :=
  ⟨⟨fun _ => rfl, by decide, fun _ => rfl⟩,
   C10_audio_error_swallowed bAudioSwallow psAudio
     "quota exceeded" "quota exceeded" "network error" "T"
     rfl (by decide) rfl (by decide) rfl (fun _ => rfl) (by decide) (fun _ => rfl)⟩

/-- Environment whose primary provider always raises `"429"`, with a secondary
configured whose chat call answers `"ok"`. -/
def bQuota429 : Behavior :=
  ⟨fun _ => Outcome.raise_ "429", true, fun _ => Outcome.ok "x", fun _ => Outcome.ok "ok"⟩

/-- Claim C1, counterexample: with both primary attempts raising `"429"` and a
secondary configured, the recorded trace places the doubled backoff sleep of 2
units after the second (last) primary attempt and before the fallback's chat
submission — the sleep at line 220 runs on every quota-classified failure,
including the one that exhausts the loop. -/
theorem C1_counterexample_sleep_before_fallback :
    (safe_generate_content bQuota429 (Contents.simple "p")).events =
      [Event.primaryCall 0, Event.sleep 1, Event.primaryCall 1, Event.sleep 2,
       Event.warnSwitching, Event.secondaryChatCall "p"] := by decide

/-- Claim C1 (amended): the backoff delay starts at 1 unit and doubles after
each quota-classified primary failure, no sleep precedes the first primary
attempt, and no sleep occurs during or after the fallback; however the sleep
follows every quota-classified failure including the last one, so when both
primary attempts fail under quota a 2-unit sleep stands between the last
primary attempt and the fallback call. -/
theorem C1_backoff_schedule (b : Behavior) (c : Contents) (m0 m1 : String)
    (h0 : b.primary 0 = Outcome.raise_ m0) (hq0 : isQuotaError m0 = true)
    (h1 : b.primary 1 = Outcome.raise_ m1) (hq1 : isQuotaError m1 = true) :
    ∃ rest, (safe_generate_content b c).events =
      [Event.primaryCall 0, Event.sleep 1, Event.primaryCall 1, Event.sleep 2] ++ rest ∧
      countP isSleep rest = 0 := by
  have hzs : countP isSleep (buildPromptParts b c initFs).events = 0 :=
    countP_buildPromptParts_eq_zero _ (fun e he => (itemEvent_not_special e he).1) b c initFs
  cases hsec : b.secondaryConfigured with
  | false =>
    refine ⟨[Event.errorQuotaNoFallback], ?_, by decide⟩
    simp [safe_generate_content, tryPrimary, h0, hq0, h1, hq1, hsec]
  | true =>
    rcases fallback_shape b c initFs hsec with ⟨t, hct, hfb⟩ | ⟨me, hcm, hfb⟩
    · refine ⟨[Event.warnSwitching] ++
        ((buildPromptParts b c initFs).events ++
          [Event.secondaryChatCall (fallbackPrompt b c initFs)]), ?_, ?_⟩
      · simp [safe_generate_content, tryPrimary, h0, hq0, h1, hq1, hsec, hfb]
      · simp [countP_append, countP_cons, countP_nil, hzs, isSleep]
    · refine ⟨[Event.warnSwitching] ++
        ((buildPromptParts b c initFs).events ++
          [Event.secondaryChatCall (fallbackPrompt b c initFs),
           Event.errorFallbackFailed ("⚠️ OpenAI Fallback Failed: " ++ me)]) ++
        [Event.errorApi ("⚠️ **API Error:** " ++ m1)], ?_, ?_⟩
      · simp [safe_generate_content, tryPrimary, h0, hq0, h1, hq1, hsec, hfb]
      · simp [countP_append, countP_cons, countP_nil, hzs, isSleep]

/-- Witness for the amended C1 at a concrete environment. -/
theorem C1_backoff_schedule_witness :
    (bQuota429.primary 0 = Outcome.raise_ "429" ∧ isQuotaError "429" = true) ∧
    (∃ rest, (safe_generate_content bQuota429 (Contents.simple "p")).events =
      [Event.primaryCall 0, Event.sleep 1, Event.primaryCall 1, Event.sleep 2] ++ rest ∧
      countP isSleep rest = 0) :=
  ⟨⟨rfl, by decide⟩,
   C1_backoff_schedule bQuota429 (Contents.simple "p") "429" "429"
     rfl (by decide) rfl (by decide)⟩

/-- Recognizes a temp-file deletion event. -/
def isTmpDelete : Event → Bool
  | Event.tmpDelete _ => true
  | _ => false

/-- Environment for the fallback audio leak: quota-failing primary, configured
secondary whose transcription call raises `"network error"` and whose chat
call answers `"T"`. -/
def bAudioLeak : Behavior :=
  ⟨fun _ => Outcome.raise_ "quota exceeded", true,
   fun _ => Outcome.raise_ "network error", fun _ => Outcome.ok "T"⟩

/-- Request with one text part and one audio part staged as temp file 0. -/
def cAudio : Contents :=
  Contents.parts [ReqPart.text "P", ReqPart.audio [1, 2] (some "audio/wav")]

/-- Claim C2 (code bug, evaluated at the failing input): when the transcription
call raises, the `os.unlink` at line 180 — placed inside the `try` after the
call rather than in a `finally` — is skipped by the jump to the handler at line
182, so the staged temporary file 0 is created, never deleted, and still exists
when the request completes. -/
theorem C2_temp_file_leaked_on_failure :
    safe_generate_content bAudioLeak cAudio =
      ⟨some "T", ⟨1, [0]⟩,
        [Event.primaryCall 0, Event.sleep 1, Event.primaryCall 1, Event.sleep 2,
         Event.warnSwitching, Event.tmpCreate 0 ".wav", Event.transcribeCall 0,
         Event.warnFallbackAudio ("Fallback Audio Processing Error: " ++ "network error"),
         Event.secondaryChatCall "P"]⟩ ∧
    countP isTmpDelete (safe_generate_content bAudioLeak cAudio).events = 0 ∧
    (safe_generate_content bAudioLeak cAudio).fs.existing = [0] := by decide

/-- Claim C4 (confirmed): every request makes at least one primary attempt and
at most one chat submission to the secondary; and whenever the secondary is
attempted at all, every primary attempt of the request failed with a
quota-classified message. -/
theorem C4_attempt_invariant (b : Behavior) (c : Contents) :
    1 ≤ primaryAttempts (safe_generate_content b c).events ∧
    secondaryAttempts (safe_generate_content b c).events ≤ 1 ∧
    (1 ≤ secondaryAttempts (safe_generate_content b c).events →
      ∀ i < primaryAttempts (safe_generate_content b c).events,
        ∃ m, b.primary i = Outcome.raise_ m ∧ isQuotaError m = true) := by
  have hz1 : countP isPrimaryCall (buildPromptParts b c initFs).events = 0 :=
    countP_buildPromptParts_eq_zero _ (fun e he => (itemEvent_not_special e he).2.1) b c initFs
  have hz2 : countP isSecondaryChat (buildPromptParts b c initFs).events = 0 :=
    countP_buildPromptParts_eq_zero _ (fun e he => (itemEvent_not_special e he).2.2.1)
      b c initFs
  rcases safe_generate_content_shape b c with
    ⟨t, h0, hrun⟩ | ⟨m0, h0, hq0, hrun⟩ | ⟨m0, t, h0, hq0, h1, hrun⟩ |
    ⟨m0, m1, h0, hq0, h1, hq1, hrun⟩ | ⟨m0, m1, h0, hq0, h1, hq1, hsec, hrun⟩ |
    ⟨m0, m1, t, h0, hq0, h1, hq1, hsec, hct, hrun⟩ |
    ⟨m0, m1, me, h0, hq0, h1, hq1, hsec, hcm, hrun⟩ <;> rw [hrun]
  · refine ⟨?_, ?_, ?_⟩
    · simp [primaryAttempts, countP_cons, countP_nil, isPrimaryCall]
    · simp [secondaryAttempts, countP_cons, countP_nil, isSecondaryChat]
    · intro hs
      simp [secondaryAttempts, countP_cons, countP_nil, isSecondaryChat] at hs
  · refine ⟨?_, ?_, ?_⟩
    · simp [primaryAttempts, countP_cons, countP_nil, isPrimaryCall]
    · simp [secondaryAttempts, countP_cons, countP_nil, isSecondaryChat]
    · intro hs
      simp [secondaryAttempts, countP_cons, countP_nil, isSecondaryChat] at hs
  · refine ⟨?_, ?_, ?_⟩
    · simp [primaryAttempts, countP_cons, countP_nil, isPrimaryCall]
    · simp [secondaryAttempts, countP_cons, countP_nil, isSecondaryChat]
    · intro hs
      simp [secondaryAttempts, countP_cons, countP_nil, isSecondaryChat] at hs
  · refine ⟨?_, ?_, ?_⟩
    · simp [primaryAttempts, countP_cons, countP_nil, isPrimaryCall]
    · simp [secondaryAttempts, countP_cons, countP_nil, isSecondaryChat]
    · intro hs
      simp [secondaryAttempts, countP_cons, countP_nil, isSecondaryChat] at hs
  · refine ⟨?_, ?_, ?_⟩
    · simp [primaryAttempts, countP_cons, countP_nil, isPrimaryCall]
    · simp [secondaryAttempts, countP_cons, countP_nil, isSecondaryChat]
    · intro hs
      simp [secondaryAttempts, countP_cons, countP_nil, isSecondaryChat] at hs
  · have hp2 : primaryAttempts
        ([Event.primaryCall 0, Event.sleep 1, Event.primaryCall 1, Event.sleep 2,
          Event.warnSwitching] ++
          ((buildPromptParts b c initFs).events ++
            [Event.secondaryChatCall (fallbackPrompt b c initFs)])) = 2 := by
      simp [primaryAttempts, countP_append, countP_cons, countP_nil, hz1, isPrimaryCall]
    refine ⟨?_, ?_, ?_⟩
    · rw [hp2]; omega
    · simp [secondaryAttempts, countP_append, countP_cons, countP_nil, hz2, isSecondaryChat]
    · intro _ i hi
      rw [hp2] at hi
      have hi2 : i = 0 ∨ i = 1 := by omega
      rcases hi2 with rfl | rfl
      · exact ⟨m0, h0, hq0⟩
      · exact ⟨m1, h1, hq1⟩
  · have hp2 : primaryAttempts
        ([Event.primaryCall 0, Event.sleep 1, Event.primaryCall 1, Event.sleep 2,
          Event.warnSwitching] ++
          ((buildPromptParts b c initFs).events ++
            [Event.secondaryChatCall (fallbackPrompt b c initFs),
             Event.errorFallbackFailed ("⚠️ OpenAI Fallback Failed: " ++ me)]) ++
          [Event.errorApi ("⚠️ **API Error:** " ++ m1)]) = 2 := by
      simp [primaryAttempts, countP_append, countP_cons, countP_nil, hz1, isPrimaryCall]
    refine ⟨?_, ?_, ?_⟩
    · rw [hp2]; omega
    · simp [secondaryAttempts, countP_append, countP_cons, countP_nil, hz2, isSecondaryChat]
    · intro _ i hi
      rw [hp2] at hi
      have hi2 : i = 0 ∨ i = 1 := by omega
      rcases hi2 with rfl | rfl
      · exact ⟨m0, h0, hq0⟩
      · exact ⟨m1, h1, hq1⟩

/-- Witness for C4 at a concrete environment. -/
theorem C4_attempt_invariant_witness :
    1 ≤ primaryAttempts (safe_generate_content bQuota429 (Contents.simple "q")).events ∧
    secondaryAttempts (safe_generate_content bQuota429 (Contents.simple "q")).events ≤ 1 ∧
    (1 ≤ secondaryAttempts (safe_generate_content bQuota429 (Contents.simple "q")).events →
      ∀ i < primaryAttempts (safe_generate_content bQuota429 (Contents.simple "q")).events,
        ∃ m, bQuota429.primary i = Outcome.raise_ m ∧ isQuotaError m = true) :=
  C4_attempt_invariant bQuota429 (Contents.simple "q")

/-- Claim C9 (confirmed): for every provider behaviour, the request terminates
in a typed result: either some generated text, or `None` together with at
least one user-visible typed error report in the trace — no exception escapes
to the caller. -/
theorem C9_never_raises (b : Behavior) (c : Contents) :
    (∃ t, (safe_generate_content b c).result = some t) ∨
    ((safe_generate_content b c).result = none ∧
      ∃ e ∈ (safe_generate_content b c).events, isErrorEvent e = true) := by
  rcases safe_generate_content_shape b c with
    ⟨t, h0, hrun⟩ | ⟨m0, h0, hq0, hrun⟩ | ⟨m0, t, h0, hq0, h1, hrun⟩ |
    ⟨m0, m1, h0, hq0, h1, hq1, hrun⟩ | ⟨m0, m1, h0, hq0, h1, hq1, hsec, hrun⟩ |
    ⟨m0, m1, t, h0, hq0, h1, hq1, hsec, hct, hrun⟩ |
    ⟨m0, m1, me, h0, hq0, h1, hq1, hsec, hcm, hrun⟩ <;> rw [hrun]
  · exact Or.inl ⟨t, rfl⟩
  · exact Or.inr ⟨rfl, Event.errorApi ("⚠️ **API Error:** " ++ m0), by simp,
      by simp [isErrorEvent]⟩
  · exact Or.inl ⟨t, rfl⟩
  · exact Or.inr ⟨rfl, Event.errorApi ("⚠️ **API Error:** " ++ m1), by simp,
      by simp [isErrorEvent]⟩
  · exact Or.inr ⟨rfl, Event.errorQuotaNoFallback, by simp, by simp [isErrorEvent]⟩
  · exact Or.inl ⟨t, rfl⟩
  · exact Or.inr ⟨rfl, Event.errorApi ("⚠️ **API Error:** " ++ m1), by simp,
      by simp [isErrorEvent]⟩
